import Mathlib

/-!
Shallow embedding of the cross-platform issue normalization and estimation
logic of the pmproject repository, translated from
`vscode-extension/out/services/estimation.js`, `src/utils/platforms.js` and
`src/utils/githubPM.js`.

Modelling conventions: JavaScript numbers are exact rationals (`ℚ`),
`Date` values are integer milliseconds since the Unix epoch (`Int`),
nullable/undefined values are `Option`, and regular-expression tests are
handwritten matching functions on character lists.  Presentation-only string
fields (reasons, warnings, suggestions) are not carried where no claim reads
them.
-/

/-- JavaScript `toLowerCase` on a character list. -/
def lowerChars (cs : List Char) : List Char := cs.map Char.toLower

/-- JavaScript `String.prototype.toLowerCase`. -/
def lowerStr (s : String) : String := String.mk (lowerChars s.data)

/-- JavaScript `String.prototype.includes`: substring containment. -/
def containsSub (needle : List Char) : List Char → Bool
  | [] => needle.isEmpty
  | c :: t => needle.isPrefixOf (c :: t) || containsSub needle t

/-- Test of an alternation regex such as `/api|endpoint|integration/`: does any
alternative occur as a substring of the (already lower-cased) text. -/
def anySub (pats : List String) (text : List Char) : Bool :=
  pats.any (fun p => containsSub p.data text)

/-- JavaScript `Math.abs` on rationals. -/
def jsAbs (q : ℚ) : ℚ := if q < 0 then -q else q

/-- JavaScript `Math.floor` on rationals, as an integer
(`q.num / q.den` is exact floor division since the denominator is positive). -/
def floorQ (q : ℚ) : Int := q.num / (q.den : Int)

/-- JavaScript `Math.ceil` on rationals, as an integer. -/
def ceilQ (q : ℚ) : Int := -(floorQ (-q))

/-- JavaScript `Math.round`: round half toward positive infinity. -/
def jsRound (q : ℚ) : Int := floorQ (q + 1/2)

/-- Milliseconds per day, the divisor `1000 * 60 * 60 * 24` used by every
cycle-time computation in the repository. -/
def msPerDay : Int := 86400000

/-- `Math.ceil (a / b)` for integer `a` and positive integer `b`, the form all
three normalizers use on millisecond timestamp differences. -/
def ceilDivInt (a b : Int) : Int := -((-a) / b)

/-- Splitting on whitespace as `String.prototype.split(/\s+/)` does.  Runs of
whitespace produce empty pieces here where the regex would merge them, but
every caller filters tokens by a minimum length that discards empty pieces,
so the resulting word sets agree. -/
def splitWsAux : List Char → List Char → List (List Char)
  | [], acc => [acc.reverse]
  | c :: t, acc =>
    if c.isWhitespace then acc.reverse :: splitWsAux t [] else splitWsAux t (c :: acc)

/-- Whitespace tokenization of a character list. -/
def splitWs (cs : List Char) : List (List Char) := splitWsAux cs []

/-- Numeric value of a digit run, as `parseInt` computes on a digit string. -/
def natOfDigits (ds : List Char) : Nat := ds.foldl (fun n c => n * 10 + (c.toNat - 48)) 0

/-- The text matched by the first match of `/\d+/` in a string: the first
maximal run of digits, `[]` when there is none. -/
def firstDigitRun : List Char → List Char
  | [] => []
  | c :: t => if c.isDigit then (c :: t).takeWhile Char.isDigit else firstDigitRun t

namespace Estimation

/-- `COMPLEXITY_INDICATORS.high` (estimation.js). -/
def COMPLEXITY_HIGH : List String :=
  ["refactor", "migration", "architecture", "security", "performance",
   "database", "integration", "api redesign", "breaking change", "major",
   "infrastructure", "scalability", "distributed", "concurrent"]

/-- `COMPLEXITY_INDICATORS.medium` (estimation.js). -/
def COMPLEXITY_MEDIUM : List String :=
  ["feature", "enhancement", "implement", "create", "add support",
   "update", "extend", "new endpoint", "authentication", "validation"]

/-- `COMPLEXITY_INDICATORS.low` (estimation.js). -/
def COMPLEXITY_LOW : List String :=
  ["fix", "bug", "typo", "update text", "documentation", "config",
   "minor", "small", "quick", "simple", "rename", "cleanup"]

/-- `STORY_POINTS` (estimation.js): the Fibonacci story-point scale. -/
def STORY_POINTS : List ℚ := [1, 2, 3, 5, 8, 13, 21]

/-- Result record of `analyzeKeywordComplexity` (the `reason` string is not
modelled). -/
structure KeywordComplexity where
  points : Nat
  matchCount : Nat
  matchedKeywords : List String

/-- `EstimationEngine.analyzeKeywordComplexity`: count substring matches of
each keyword tier in the text (the caller passes the text lower-cased), then
map the counts through the fixed decision chain. -/
def analyzeKeywordComplexity (text : String) : KeywordComplexity :=
  let highMatches := COMPLEXITY_HIGH.filter (fun k => containsSub k.data text.data)
  let mediumMatches := COMPLEXITY_MEDIUM.filter (fun k => containsSub k.data text.data)
  let lowMatches := COMPLEXITY_LOW.filter (fun k => containsSub k.data text.data)
  let highCount := highMatches.length
  let mediumCount := mediumMatches.length
  let lowCount := lowMatches.length
  let points : Nat :=
    if 2 ≤ highCount then 13
    else if highCount = 1 then 8
    else if 2 ≤ mediumCount then 5
    else if mediumCount = 1 ∨ lowCount = 0 then 3
    else if 2 ≤ lowCount then 1
    else 2
  { points := points
    matchCount := highCount + mediumCount + lowCount
    matchedKeywords := highMatches ++ mediumMatches ++ lowMatches }

/-- `EstimationEngine.nearestFibonacci`: the loop tracking the closest story
point and the minimal absolute difference, with a strict comparison, so the
first (smallest) value of the table wins ties. -/
def nearestFibonacci (value : ℚ) : ℚ :=
  (STORY_POINTS.foldl
    (fun acc point => if jsAbs (value - point) < acc.2 then (point, jsAbs (value - point)) else acc)
    (1, jsAbs (value - 1))).1

/-- A historical issue as consumed by `findSimilarIssues`: labels are the label
name strings (`issue.labels?.map(l => l.name)`). -/
structure HistIssue where
  title : String
  body : Option String
  labels : Option (List String)
  storyPoints : Option Nat

/-- One entry of the similar-issue list. -/
structure SimilarIssue where
  title : String
  points : ℚ
  similarity : ℚ

/-- The JavaScript `Set` of words of a text used by the Jaccard similarity:
whitespace tokens of length greater than 3, deduplicated. -/
def wordSet (s : String) : List (List Char) :=
  ((splitWs s.data).filter (fun w => 3 < w.length)).dedup

/-- The pattern `/(\d+)\s*points?/i` applied at the start of a string: one or
more digits, optional whitespace, then `point` case-insensitively (the
trailing optional `s` cannot affect whether a match exists).  Returns the
captured digit group. -/
def pointsChunkAt (cs : List Char) : Option Nat :=
  let ds := cs.takeWhile Char.isDigit
  if ds.isEmpty then none
  else
    let rest := (cs.drop ds.length).dropWhile Char.isWhitespace
    if "point".data.isPrefixOf (lowerChars rest) then some (natOfDigits ds) else none

/-- Unanchored leftmost search for `/(\d+)\s*points?/i`, as
`label.name.match` performs.  Greedy `\d+` never needs backtracking here
because the literal that follows cannot start with a digit. -/
def pointsChunk : List Char → Option Nat
  | [] => none
  | c :: t =>
    match pointsChunkAt (c :: t) with
    | some n => some n
    | none => pointsChunk t

/-- Story points attributed to a historical issue inside `findSimilarIssues`:
`issue.storyPoints || 3` (0 and null are both falsy), overridden by the first
label matching `/(\d+)\s*points?/i`. -/
def historicalPoints (issue : HistIssue) : ℚ :=
  let base : Nat :=
    match issue.storyPoints with
    | some p => if p = 0 then 3 else p
    | none => 3
  match issue.labels with
  | some ls =>
    match ls.findSome? (fun l => pointsChunk l.data) with
    | some n => (n : ℚ)
    | none => (base : ℚ)
  | none => (base : ℚ)

/-- `EstimationEngine.findSimilarIssues`: Jaccard similarity between the
candidate word set and each historical issue's word set, keep issues with
similarity above 0.1, sort descending by similarity (stably, as the
JavaScript comparator `b.similarity - a.similarity` does). -/
def findSimilarIssues (historicalData : List HistIssue) (text : String) : List SimilarIssue :=
  if historicalData.isEmpty then []
  else
    let textWords := wordSet text
    let mapped := historicalData.map (fun issue =>
      let labelNames :=
        match issue.labels with
        | some ls => String.intercalate " " ls
        | none => ""
      let issueText := lowerStr (issue.title ++ " " ++ issue.body.getD "" ++ " " ++ labelNames)
      let issueWords := wordSet issueText
      let inter := (textWords.filter (fun w => issueWords.contains w)).length
      let union := (textWords ++ issueWords).dedup.length
      let similarity : ℚ := if 0 < union then (inter : ℚ) / (union : ℚ) else 0
      { title := issue.title, points := historicalPoints issue, similarity := similarity })
    List.mergeSort (mapped.filter (fun item => (0.1 : ℚ) < item.similarity))
      (fun a b => b.similarity ≤ a.similarity)

/-- Result of one `estimate` call (provenance strings, warnings and the
similar-issue echo are not modelled). -/
structure EstimationResult where
  points : ℚ
  confidence : Nat
  estimatedDays : Int

/-- The candidate text `estimate` builds on its first line: the lower-cased
concatenation of story text, description (empty when absent) and the
space-joined labels. -/
def combinedText (storyText : String) (description : Option String)
    (labels : Option (List String)) : String :=
  lowerStr (storyText ++ " " ++ description.getD "" ++ " "
    ++ String.intercalate " " (labels.getD []))

/-- `EstimationEngine.estimate`: combine the candidate text, find similar
historical issues, and decide between the strong-history, blended and
keyword-only branches. -/
def estimate (historicalData : List HistIssue) (storyText : String)
    (description : Option String) (labels : Option (List String)) : EstimationResult :=
  let text := combinedText storyText description labels
  let similarIssues := findSimilarIssues historicalData text
  let keywordComplexity := analyzeKeywordComplexity text
  let pc : ℚ × Nat :=
    match similarIssues with
    | s0 :: _ =>
      if 3 ≤ similarIssues.length ∧ (0.5 : ℚ) < s0.similarity then
        let avgPoints := ((similarIssues.take 3).foldl (fun sum i => sum + i.points) 0) / 3
        (nearestFibonacci avgPoints, if (0.7 : ℚ) < s0.similarity then 85 else 70)
      else if 1 ≤ similarIssues.length ∧ (0.3 : ℚ) < s0.similarity then
        let blendedPoints := (s0.points + (keywordComplexity.points : ℚ)) / 2
        (nearestFibonacci blendedPoints, 60)
      else
        ((keywordComplexity.points : ℚ), if 2 < keywordComplexity.matchCount then 55 else 40)
    | [] =>
      ((keywordComplexity.points : ℚ), if 2 < keywordComplexity.matchCount then 55 else 40)
  { points := pc.1
    confidence := pc.2
    estimatedDays := ceilQ (pc.1 * (0.75 : ℚ)) }

/-- The keyword-complexity decision table exactly as the specification words
it, as a pure function of the three tier match counts. -/
def keywordPointsSpec (highCount mediumCount lowCount : Nat) : Nat :=
  if 2 ≤ highCount then 13
  else if highCount = 1 then 8
  else if 2 ≤ mediumCount then 5
  else if mediumCount = 1 ∨ lowCount = 0 then 3
  else if 2 ≤ lowCount then 1
  else 2

/-- Number of keywords of a lexicon matching a text by substring containment,
stated independently of the implementation's accumulation loop. -/
def countMatches (keywords : List String) (text : String) : Nat :=
  keywords.countP (fun k => containsSub k.data text.data)

/-- The `estimate` decision policy exactly as the specification words it, as a
function of the similar-issue list and the keyword analysis outputs. -/
def estimatePolicySpec (sims : List SimilarIssue) (kwPoints : ℚ) (kwMatchCount : Nat) :
    ℚ × Nat :=
  let topSim : ℚ :=
    match sims.head? with
    | some s => s.similarity
    | none => 0
  let topPoints : ℚ :=
    match sims.head? with
    | some s => s.points
    | none => 0
  if 3 ≤ sims.length ∧ (0.5 : ℚ) < topSim then
    (nearestFibonacci (((sims.take 3).foldl (fun sum i => sum + i.points) 0) / 3),
      if (0.7 : ℚ) < topSim then 85 else 70)
  else if 1 ≤ sims.length ∧ (0.3 : ℚ) < topSim then
    (nearestFibonacci ((topPoints + kwPoints) / 2), 60)
  else
    (kwPoints, if 2 < kwMatchCount then 55 else 40)

end Estimation

namespace Platforms

/-- The unified issue record of `platforms.js` (`UnifiedIssue`). -/
structure UnifiedIssue where
  id : String
  externalId : String
  platform : String
  title : String
  description : String
  state : String
  type : String
  priority : String
  storyPoints : Option ℚ
  labels : List String
  assignee : String
  createdAt : Int
  closedAt : Option Int
  cycleTimeDays : Option Int
  url : String
  projectKey : String
  sprintName : String

/-- A raw GitHub issue as the normalizer consumes it (labels already reduced
to their name strings, as `(issue.labels || []).map(l => l.name || l)` does;
timestamps in epoch milliseconds). -/
structure GHIssue where
  number : Nat
  title : String
  body : Option String
  state : String
  labels : Option (List String)
  assigneeLogin : Option String
  created_at : Int
  closed_at : Option Int
  html_url : String

/-- The anchored story-points label pattern
`/^(sp|points?|story.?points?)[:\s-]?\d+$/i` on a lower-cased label.  The
head alternation can leave several possible remainders (the optional `s`, the
optional single character after `story`); a match exists iff some remainder
is followed by an optional `[:\s-]` character and then digits to the end. -/
def pointsHeadRemainders (cs : List Char) : List (List Char) :=
  let pointRemainders := fun (r : List Char) =>
    (if "points".data.isPrefixOf r then [r.drop 6] else [])
      ++ (if "point".data.isPrefixOf r then [r.drop 5] else [])
  (if "sp".data.isPrefixOf cs then [cs.drop 2] else [])
    ++ pointRemainders cs
    ++ (if "story".data.isPrefixOf cs then
          (let r := cs.drop 5
           pointRemainders r
             ++ (match r with
                 | [] => []
                 | _ :: t => pointRemainders t))
        else [])

/-- One or more digits and nothing else. -/
def allDigits1 (cs : List Char) : Bool := !cs.isEmpty && cs.all Char.isDigit

/-- Tail of the anchored pattern: optional `[:\s-]` then digits to the end. -/
def pointsTailMatch (r : List Char) : Bool :=
  allDigits1 r ||
    (match r with
     | c :: t => (c = ':' || c.isWhitespace || c = '-') && allDigits1 t
     | [] => false)

/-- Match of `/^(sp|points?|story.?points?)[:\s-]?\d+$/i` (label lower-cased
by the caller). -/
def ghPointsPatternA (cs : List Char) : Bool :=
  (pointsHeadRemainders cs).any pointsTailMatch

/-- Match of `/^\d+\s*(sp|points?)?$/i` (label lower-cased by the caller):
leading digits, optional whitespace, then an optional unit suffix.  Greedy
`\d+` and `\s*` need no backtracking because the suffixes start with
letters. -/
def ghPointsPatternB (cs : List Char) : Bool :=
  let ds := cs.takeWhile Char.isDigit
  !ds.isEmpty &&
    (let r := (cs.drop ds.length).dropWhile Char.isWhitespace
     r.isEmpty || r = "sp".data || r = "point".data || r = "points".data)

/-- The story-points label lookup in `normalizeGitHubIssue`: the first label
matching either pattern; its first digit run is the value. -/
def ghStoryPoints (labels : List String) : Option ℚ :=
  match labels.find? (fun l =>
      ghPointsPatternA (lowerChars l.data) || ghPointsPatternB (lowerChars l.data)) with
  | some l => some ((natOfDigits (firstDigitRun l.data) : Nat) : ℚ)
  | none => none

/-- `detectIssueType` (platforms.js): label vocabularies with a textual
fallback scan over labels-plus-title. -/
def detectIssueType (labels : List String) (title : String) : String :=
  let text := lowerChars ((String.intercalate " " labels ++ " " ++ title).data)
  if labels.any (fun l => ["bug", "fix", "type/bug"].contains (lowerStr l))
      || containsSub "bug".data text || containsSub "fix".data text then "bug"
  else if labels.any (fun l => ["feature", "enhancement", "type/feature"].contains (lowerStr l))
      || containsSub "feature".data text || containsSub "new".data text then "feature"
  else if labels.any (fun l => ["chore", "maintenance"].contains (lowerStr l)) then "chore"
  else "task"

/-- Search for `priority` followed by an optional single character and one of
the given alternatives, anywhere in the text: the test of
`/priority.?(alt|...)/` (the lone difference from the regex is that `.` here
may also match a newline, which no priority label contains). -/
def priorityMatchAt (alts : List String) (s : List Char) : Bool :=
  "priority".data.isPrefixOf s &&
    (let r := s.drop 8
     alts.any (fun a => a.data.isPrefixOf r)
       || (match r with
           | [] => false
           | _ :: t => alts.any (fun a => a.data.isPrefixOf t)))

/-- Scan of all start positions for `priorityMatchAt`. -/
def priorityAnywhere (alts : List String) : List Char → Bool
  | [] => false
  | c :: t => priorityMatchAt alts (c :: t) || priorityAnywhere alts t

/-- `detectPriority` (platforms.js). -/
def detectPriority (labels : List String) : String :=
  let labelStr := lowerChars ((String.intercalate " " labels).data)
  if priorityAnywhere ["high", "critical", "urgent", "p0", "p1"] labelStr
      || labels.any (fun l => containsSub "blocker".data (lowerChars l.data)) then "high"
  else if priorityAnywhere ["low", "minor", "p3", "p4"] labelStr then "low"
  else "medium"

/-- `normalizeGitHubIssue` (platforms.js). -/
def normalizeGitHubIssue (issue : GHIssue) : UnifiedIssue :=
  let labels := issue.labels.getD []
  let created := issue.created_at
  { id := "github-" ++ toString issue.number
    externalId := toString issue.number
    platform := "github"
    title := issue.title
    description := issue.body.getD ""
    state := if issue.state = "closed" then "closed" else "open"
    type := detectIssueType labels issue.title
    priority := detectPriority labels
    storyPoints := ghStoryPoints labels
    labels := labels
    assignee := issue.assigneeLogin.getD ""
    createdAt := created
    closedAt := issue.closed_at
    cycleTimeDays := issue.closed_at.map (fun closed => ceilDivInt (closed - created) msPerDay)
    url := issue.html_url
    projectKey := ""
    sprintName := "" }

/-- The Azure DevOps work-item fields the normalizer reads
(`item.fields['...']`), with timestamps in epoch milliseconds. -/
structure AdoFields where
  createdDate : Int
  closedDate : Option Int
  state : Option String
  workItemType : Option String
  title : Option String
  description : Option String
  priority : Option Int
  storyPoints : Option ℚ
  tags : Option String
  assignedTo : Option String
  teamProject : Option String
  iterationPath : Option String

/-- A raw Azure DevOps work item. -/
structure AdoItem where
  id : Nat
  fields : AdoFields
  htmlHref : Option String
  url : String

/-- `mapAdoPriority` (platforms.js): an absent numeric priority satisfies
neither comparison in JavaScript and falls through to `medium`. -/
def mapAdoPriority : Option Int → String
  | none => "medium"
  | some p => if p ≤ 1 then "high" else if 3 ≤ p then "low" else "medium"

/-- `normalizeAzureDevOpsWorkItem` (platforms.js). -/
def normalizeAzureDevOpsWorkItem (item : AdoItem) : UnifiedIssue :=
  let fields := item.fields
  let created := fields.createdDate
  let state := (fields.state.map lowerStr).getD ""
  let normalizedState :=
    if ["done", "closed", "resolved", "completed"].contains state then "closed"
    else if ["active", "in progress", "doing"].contains state then "in-progress"
    else "open"
  let workItemType := (fields.workItemType.map lowerStr).getD ""
  let type :=
    if workItemType = "bug" then "bug"
    else if ["user story", "story", "feature"].contains workItemType then "feature"
    else if ["task"].contains workItemType then "task"
    else "task"
  { id := "ado-" ++ toString item.id
    externalId := toString item.id
    platform := "azuredevops"
    title := fields.title.getD ""
    description := fields.description.getD ""
    state := normalizedState
    type := type
    priority := mapAdoPriority fields.priority
    storyPoints :=
      match fields.storyPoints with
      | some p => if p = 0 then none else some p
      | none => none
    labels := ((fields.tags.getD "").splitOn ";").map String.trim |>.filter (fun t => t ≠ "")
    assignee := fields.assignedTo.getD ""
    createdAt := created
    closedAt := fields.closedDate
    cycleTimeDays := fields.closedDate.map (fun closed => ceilDivInt (closed - created) msPerDay)
    url := (item.htmlHref).getD ("https://dev.azure.com/" ++ item.url)
    projectKey := fields.teamProject.getD ""
    sprintName :=
      match fields.iterationPath with
      | some p => (((p.splitOn "\\").getLast?).getD "")
      | none => "" }

/-- The Jira issue fields the normalizer reads, with timestamps in epoch
milliseconds.  The three story-point custom fields and the `Story Points`
field are kept in the order the `||` chain consults them. -/
structure JiraFields where
  created : Int
  resolutiondate : Option Int
  statusName : Option String
  issuetypeName : Option String
  summary : Option String
  description : Option String
  priorityName : Option String
  customfield10016 : Option ℚ
  customfield10026 : Option ℚ
  customfield10004 : Option ℚ
  storyPointsNamed : Option ℚ
  labels : Option (List String)
  assigneeDisplayName : Option String
  projectKey : Option String
  sprintName : Option String

/-- A raw Jira issue (the `_domain` the connector attaches is carried). -/
structure JiraIssue where
  key : String
  fields : JiraFields
  domain : String

/-- The JavaScript `a || b || ... || null` chain over numeric fields: the
first present non-zero value wins (0 is falsy and is skipped). -/
def jsOrChainQ : List (Option ℚ) → Option ℚ
  | [] => none
  | o :: rest =>
    match o with
    | some p => if p = 0 then jsOrChainQ rest else some p
    | none => jsOrChainQ rest

/-- `normalizeJiraIssue` (platforms.js). -/
def normalizeJiraIssue (issue : JiraIssue) : UnifiedIssue :=
  let fields := issue.fields
  let created := fields.created
  let status := (fields.statusName.map lowerStr).getD ""
  let normalizedState :=
    if ["done", "closed", "resolved"].contains status then "closed"
    else if ["in progress", "in review", "testing"].contains status then "in-progress"
    else "open"
  let issueType := (fields.issuetypeName.map lowerStr).getD ""
  let type :=
    if issueType = "bug" then "bug"
    else if ["story", "user story", "feature"].contains issueType then "feature"
    else if ["epic"].contains issueType then "epic"
    else "task"
  { id := "jira-" ++ issue.key
    externalId := issue.key
    platform := "jira"
    title := fields.summary.getD ""
    description := fields.description.getD ""
    state := normalizedState
    type := type
    priority :=
      match fields.priorityName with
      | some p => if p = "" then "medium" else lowerStr p
      | none => "medium"
    storyPoints := jsOrChainQ [fields.customfield10016, fields.customfield10026,
      fields.customfield10004, fields.storyPointsNamed]
    labels := fields.labels.getD []
    assignee := fields.assigneeDisplayName.getD ""
    createdAt := created
    closedAt := fields.resolutiondate
    cycleTimeDays := fields.resolutiondate.map (fun resolved => ceilDivInt (resolved - created) msPerDay)
    url := "https://" ++ issue.domain ++ "/browse/" ++ issue.key
    projectKey := fields.projectKey.getD ""
    sprintName := fields.sprintName.getD "" }

/-- JavaScript truthiness of a nullable number: null and 0 are falsy. -/
def jsTruthyOptInt : Option Int → Bool
  | none => false
  | some d => d != 0

/-- JavaScript truthiness of a nullable rational. -/
def jsTruthyOptQ : Option ℚ → Bool
  | none => false
  | some p => p != 0

/-- The filter at the head of `buildCrossOrgEstimationModel`:
`allIssues.filter(i => i.state === 'closed' && i.cycleTimeDays)`. -/
def crossOrgQualifying (allIssues : List UnifiedIssue) : List UnifiedIssue :=
  allIssues.filter (fun i => i.state == "closed" && jsTruthyOptInt i.cycleTimeDays)

/-- The `avg` helper of the model builders:
`arr => arr.length ? arr.reduce((a,b) => a+b, 0) / arr.length : 0`. -/
def avgQ (l : List ℚ) : ℚ := if l.isEmpty then 0 else l.foldl (fun a b => a + b) 0 / (l.length : ℚ)

/-- A JavaScript `x || d` fallback between numbers: `x` when non-zero,
else `d`. -/
def jsOrQ (x d : ℚ) : ℚ := if x = 0 then d else x

/-- Cycle-time value of a qualifying issue as a rational (qualifying issues
always carry one). -/
def cycleQ (i : UnifiedIssue) : ℚ := ((i.cycleTimeDays.getD 0 : Int) : ℚ)

/-- The cross-org estimation model (`platforms.js`).  When
`hasEnoughData = false` the JavaScript object carries only `hasEnoughData`,
`sampleSize` and `platforms`; the remaining fields are zero here and no code
path reads them in that state. -/
structure CrossOrgModel where
  hasEnoughData : Bool
  sampleSize : Nat
  platforms : List (String × Nat)
  avgCycleTimeFeature : ℚ
  avgCycleTimeBug : ℚ
  avgCycleTimeTask : ℚ
  multApi : ℚ
  multDb : ℚ
  multAuth : ℚ
  pointsToDays : ℚ

/-- The per-platform counts of the `byPlatform` grouping (display names, a
presentation concern, are not modelled). -/
def platformCounts (issues : List UnifiedIssue) : List (String × Nat) :=
  ((issues.map (fun i => i.platform)).dedup).map
    (fun p => (p, (issues.filter (fun i => i.platform == p)).length))

/-- `buildCrossOrgEstimationModel` (platforms.js). -/
def buildCrossOrgEstimationModel (allIssues : List UnifiedIssue) : CrossOrgModel :=
  let closedIssues := crossOrgQualifying allIssues
  if closedIssues.length < 5 then
    { hasEnoughData := false, sampleSize := closedIssues.length, platforms := []
      avgCycleTimeFeature := 0, avgCycleTimeBug := 0, avgCycleTimeTask := 0
      multApi := 0, multDb := 0, multAuth := 0, pointsToDays := 0 }
  else
    let features := closedIssues.filter (fun i => i.type == "feature")
    let bugs := closedIssues.filter (fun i => i.type == "bug")
    let tasks := closedIssues.filter (fun i => i.type == "task")
    let withApi := closedIssues.filter (fun i =>
      anySub ["api", "endpoint", "integration"] (lowerChars (i.title ++ i.description).data))
    let withDb := closedIssues.filter (fun i =>
      anySub ["database", "migration", "schema"] (lowerChars (i.title ++ i.description).data))
    let withAuth := closedIssues.filter (fun i =>
      anySub ["auth", "login", "permission", "security"] (lowerChars (i.title ++ i.description).data))
    let baseAvg := avgQ (closedIssues.map cycleQ)
    let pointedIssues := closedIssues.filter (fun i => jsTruthyOptQ i.storyPoints)
    { hasEnoughData := true
      sampleSize := closedIssues.length
      platforms := platformCounts closedIssues
      avgCycleTimeFeature := jsOrQ (avgQ (features.map cycleQ)) 5
      avgCycleTimeBug := jsOrQ (avgQ (bugs.map cycleQ)) 2
      avgCycleTimeTask := jsOrQ (avgQ (tasks.map cycleQ)) 3
      multApi := if 2 < withApi.length then avgQ (withApi.map cycleQ) / baseAvg else 1.3
      multDb := if 2 < withDb.length then avgQ (withDb.map cycleQ) / baseAvg else 1.4
      multAuth := if 2 < withAuth.length then avgQ (withAuth.map cycleQ) / baseAvg else 1.5
      pointsToDays :=
        if 3 < pointedIssues.length then
          avgQ (pointedIssues.map (fun i => cycleQ i / (i.storyPoints.getD 0)))
        else 1 }

/-- The `fibonacci.reduce` rounding used by `platforms.js` and
`githubPM.js`: a strict comparison starting from the first table value, so
the smallest Fibonacci value wins ties. -/
def fibReduce (raw : ℚ) : ℚ :=
  ([2, 3, 5, 8, 13, 21] : List ℚ).foldl
    (fun prev curr => if jsAbs (curr - raw) < jsAbs (prev - raw) then curr else prev) 1

/-- Result of the cross-org estimators. -/
structure CrossOrgEstimate where
  points : ℚ
  estimatedDays : ℚ
  confidence : Nat
  isHeuristic : Bool

/-- `heuristicEstimate` (platforms.js): the additive keyword heuristic used
when the model lacks data.  Labels are accepted but never read, as in the
source. -/
def heuristicEstimate (title description : String) (labels : List String) : CrossOrgEstimate :=
  let text := lowerChars ((title ++ " " ++ description).data)
  let base : ℚ :=
    if anySub ["bug", "fix"] text then 2
    else if anySub ["new", "create", "implement", "feature"] text then 5
    else 3
  let p1 := if anySub ["api", "integration"] text then base + 2 else base
  let p2 := if anySub ["database", "migration"] text then p1 + 2 else p1
  let p3 := if anySub ["auth", "security"] text then p2 + 2 else p2
  let p4 := if anySub ["simple", "small", "minor"] text then max 1 (p3 - 2) else p3
  let finalPoints := fibReduce p4
  { points := finalPoints
    estimatedDays := finalPoints
    confidence := 40
    isHeuristic := true }

/-- `estimateWithCrossOrgModel` (platforms.js). -/
def estimateWithCrossOrgModel (title description : String) (labels : List String)
    (model : CrossOrgModel) : CrossOrgEstimate :=
  if !model.hasEnoughData then heuristicEstimate title description labels
  else
    let text := lowerChars ((title ++ " " ++ description).data)
    let labelLower := labels.map lowerStr
    let isFeature := labelLower.any (fun l => ["feature", "enhancement", "story"].contains l)
      || anySub ["new", "create", "implement", "feature"] text
    let isBug := labelLower.any (fun l => ["bug", "fix"].contains l)
      || anySub ["bug", "fix", "broken"] text
    let base0 :=
      if isFeature then model.avgCycleTimeFeature
      else if isBug then model.avgCycleTimeBug
      else model.avgCycleTimeTask
    let b1 := if anySub ["api", "endpoint", "integration"] text then base0 * model.multApi else base0
    let b2 := if anySub ["database", "migration", "schema"] text then b1 * model.multDb else b1
    let b3 := if anySub ["auth", "login", "permission", "security"] text then b2 * model.multAuth else b2
    let rawPoints := b3 / model.pointsToDays
    { points := fibReduce rawPoints
      estimatedDays := ((jsRound b3 : Int) : ℚ)
      confidence := min 95 (50 + model.sampleSize)
      isHeuristic := false }

end Platforms

namespace GithubPM

/-- One record of `fetchClosedIssuesWithTiming` as `buildEstimationModel`
consumes it (the complexity-indicator booleans are flattened into fields;
the ones the model never reads are omitted). -/
structure TimedIssue where
  cycleTimeDays : Int
  points : Option Nat
  isFeature : Bool
  isBug : Bool
  isChore : Bool
  hasApi : Bool
  hasDb : Bool
  hasAuth : Bool

/-- The single-source estimation model (`githubPM.js`).  When
`hasEnoughData = false` the JavaScript object carries only `hasEnoughData`
and the raw issue list; the numeric fields are zero here and no code path
reads them in that state. -/
structure GPMModel where
  hasEnoughData : Bool
  sampleSize : Nat
  avgFeature : ℚ
  avgBug : ℚ
  avgChore : ℚ
  avgOther : ℚ
  multApi : ℚ
  multDb : ℚ
  multAuth : ℚ
  multRefactor : ℚ
  multNewFeature : ℚ
  pointsToDays : ℚ

/-- Cycle time of a historical issue as a rational. -/
def cycleQ (i : TimedIssue) : ℚ := ((i.cycleTimeDays : Int) : ℚ)

/-- JavaScript truthiness of the optional `points` field (0 is falsy). -/
def jsTruthyPoints : Option Nat → Bool
  | none => false
  | some p => p != 0

/-- `buildEstimationModel` (githubPM.js). -/
def buildEstimationModel (historicalIssues : List TimedIssue) : GPMModel :=
  if historicalIssues.length < 5 then
    { hasEnoughData := false, sampleSize := historicalIssues.length
      avgFeature := 0, avgBug := 0, avgChore := 0, avgOther := 0
      multApi := 0, multDb := 0, multAuth := 0, multRefactor := 0, multNewFeature := 0
      pointsToDays := 0 }
  else
    let features := historicalIssues.filter (fun i => i.isFeature)
    let bugs := historicalIssues.filter (fun i => i.isBug)
    let chores := historicalIssues.filter (fun i => i.isChore)
    let other := historicalIssues.filter (fun i => !i.isFeature && !i.isBug && !i.isChore)
    let withApi := historicalIssues.filter (fun i => i.hasApi)
    let withDb := historicalIssues.filter (fun i => i.hasDb)
    let withAuth := historicalIssues.filter (fun i => i.hasAuth)
    let baseAvg := Platforms.avgQ (historicalIssues.map cycleQ)
    let pointedIssues := historicalIssues.filter (fun i => jsTruthyPoints i.points)
    { hasEnoughData := true
      sampleSize := historicalIssues.length
      avgFeature := Platforms.jsOrQ (Platforms.avgQ (features.map cycleQ)) 5
      avgBug := Platforms.jsOrQ (Platforms.avgQ (bugs.map cycleQ)) 2
      avgChore := Platforms.jsOrQ (Platforms.avgQ (chores.map cycleQ)) 3
      avgOther := Platforms.jsOrQ (Platforms.avgQ (other.map cycleQ)) 3
      multApi := if 2 < withApi.length then Platforms.avgQ (withApi.map cycleQ) / baseAvg else 1.3
      multDb := if 2 < withDb.length then Platforms.avgQ (withDb.map cycleQ) / baseAvg else 1.4
      multAuth := if 2 < withAuth.length then Platforms.avgQ (withAuth.map cycleQ) / baseAvg else 1.5
      multRefactor := 1.5
      multNewFeature := 1.2
      pointsToDays :=
        if 3 < pointedIssues.length then
          Platforms.avgQ (pointedIssues.map (fun i => cycleQ i / ((i.points.getD 0 : Nat) : ℚ)))
        else 1 }

/-- A raw open issue as `estimateStoryPoints` and `analyzeStoryGaps` consume
it (labels reduced to their name strings, as `(l.name || l)` does). -/
structure OpenIssue where
  number : Nat
  title : String
  body : Option String
  labels : List String
  html_url : String

/-- Result of the single-source estimators. -/
structure PointEstimate where
  points : ℚ
  estimatedDays : ℚ
  confidence : Nat
  isHeuristic : Bool

/-- `heuristicEstimate` (githubPM.js): the fallback when the model lacks
data. -/
def heuristicEstimate (issue : OpenIssue) : PointEstimate :=
  let text := lowerChars ((issue.title ++ " " ++ issue.body.getD "").data)
  let labels := issue.labels.map lowerStr
  let base : ℚ :=
    if labels.any (fun l => containsSub "bug".data l.data) || anySub ["bug", "fix"] text then 2
    else if anySub ["new", "create", "implement", "feature"] text then 5
    else 3
  let p1 := if anySub ["api", "integration", "external"] text then base + 2 else base
  let p2 := if anySub ["database", "migration", "schema"] text then p1 + 2 else p1
  let p3 := if anySub ["auth", "security", "permission"] text then p2 + 2 else p2
  let p4 := if anySub ["refactor", "rewrite", "redesign"] text then p3 + 3 else p3
  let p5 := if anySub ["simple", "small", "minor", "typo"] text then max 1 (p4 - 2) else p4
  let finalPoints := Platforms.fibReduce p5
  { points := finalPoints
    estimatedDays := finalPoints
    confidence := 40
    isHeuristic := true }

/-- `estimateStoryPoints` (githubPM.js). -/
def estimateStoryPoints (issue : OpenIssue) (model : GPMModel) : PointEstimate :=
  if !model.hasEnoughData then heuristicEstimate issue
  else
    let text := lowerChars ((issue.title ++ " " ++ issue.body.getD "").data)
    let labels := issue.labels.map lowerStr
    let isFeature := labels.any (fun l => ["feature", "enhancement"].contains l)
      || anySub ["new", "create", "add", "implement", "feature"] text
    let isBug := labels.any (fun l => ["bug", "fix"].contains l)
      || anySub ["bug", "fix", "broken"] text
    let isChore := labels.any (fun l => ["chore", "maintenance"].contains l)
    let base0 :=
      if isFeature then model.avgFeature
      else if isBug then model.avgBug
      else if isChore then model.avgChore
      else model.avgOther
    let b1 := if anySub ["api", "endpoint", "integration"] text then base0 * model.multApi else base0
    let b2 := if anySub ["database", "migration", "schema"] text then b1 * model.multDb else b1
    let b3 := if anySub ["auth", "login", "permission", "security"] text then b2 * model.multAuth else b2
    let b4 := if anySub ["refactor", "rewrite"] text then b3 * model.multRefactor else b3
    let rawPoints := b4 / model.pointsToDays
    { points := Platforms.fibReduce rawPoints
      estimatedDays := ((jsRound b4 : Int) : ℚ)
      confidence := min 95 (50 + model.sampleSize * 2)
      isHeuristic := false }

/-- One gap entry of the story gap analyzer (the fixed message and
suggestion strings are not modelled). -/
structure Gap where
  category : String
  severity : String

/-- The security-sensitive keyword list of `analyzeStoryGaps`. -/
def securityKeywords : List String :=
  ["password", "login", "auth", "payment", "credit", "personal", "email",
   "phone", "address", "admin", "delete", "export"]

/-- The UI keyword list of `analyzeStoryGaps`. -/
def uiKeywords : List String :=
  ["button", "form", "modal", "dialog", "menu", "dropdown", "input",
   "display", "show", "ui", "page", "screen"]

/-- The performance keyword list of `analyzeStoryGaps`. -/
def perfKeywords : List String :=
  ["list", "search", "filter", "export", "import", "load", "fetch",
   "sync", "bulk", "batch"]

/-- Result record of `analyzeStoryGaps`. -/
structure GapReport where
  issueNumber : Nat
  title : String
  url : String
  gaps : List Gap
  gapCount : Nat
  highSeverity : Nat
  score : Int

/-- `analyzeStoryGaps` (githubPM.js): the fixed sequence of independent rule
checks and the aggregate score. -/
def analyzeStoryGaps (issue : OpenIssue) : GapReport :=
  let title := lowerChars issue.title.data
  let body := lowerChars ((issue.body.getD "").data)
  let labels := issue.labels.map lowerStr
  let fullText := title ++ " ".data ++ body
  let acGap : List Gap :=
    if !containsSub "acceptance criteria".data body && !containsSub "- [ ]".data body
        && !containsSub "given".data body && !containsSub "when".data body then
      [{ category := "Acceptance Criteria", severity := "high" }]
    else []
  let edgeGap : List Gap :=
    if !labels.contains "test/edge-cases" && !containsSub "edge case".data body
        && !containsSub "boundary".data body then
      [{ category := "Edge Cases", severity := "medium" }]
    else []
  let errorGap : List Gap :=
    if !containsSub "error".data body && !containsSub "fail".data body
        && !containsSub "invalid".data body && !labels.contains "test/negative" then
      [{ category := "Error Handling", severity := "medium" }]
    else []
  let securityGap : List Gap :=
    if (securityKeywords.any (fun kw => containsSub kw.data fullText))
        && !labels.contains "test/security" && !containsSub "security".data body then
      [{ category := "Security", severity := "high" }]
    else []
  let a11yGap : List Gap :=
    if (uiKeywords.any (fun kw => containsSub kw.data fullText))
        && !labels.contains "test/accessibility" && !containsSub "accessibility".data body
        && !containsSub "a11y".data body then
      [{ category := "Accessibility", severity := "medium" }]
    else []
  let perfGap : List Gap :=
    if (perfKeywords.any (fun kw => containsSub kw.data fullText))
        && !containsSub "performance".data body && !containsSub "load time".data body
        && !containsSub "pagination".data body then
      [{ category := "Performance", severity := "low" }]
    else []
  let testGap : List Gap :=
    if !labels.contains "has-test-cases" then
      [{ category := "Test Cases", severity := "high" }]
    else []
  let gaps := acGap ++ edgeGap ++ errorGap ++ securityGap ++ a11yGap ++ perfGap ++ testGap
  { issueNumber := issue.number
    title := issue.title
    url := issue.html_url
    gaps := gaps
    gapCount := gaps.length
    highSeverity := (gaps.filter (fun g => g.severity == "high")).length
    score := max 0 (100
      - ((gaps.filter (fun g => g.severity == "high")).length : Int) * 25
      - ((gaps.filter (fun g => g.severity == "medium")).length : Int) * 10
      - ((gaps.filter (fun g => g.severity == "low")).length : Int) * 5) }

end GithubPM

/-- A GitHub issue for the end-to-end normalization scenario: labels
`["bug", "5 points"]`, closed, created 2024-01-01T00:00:00Z and closed
2024-01-04T00:00:00Z (epoch milliseconds). -/
def exGH : Platforms.GHIssue :=
  { number := 101
    title := "Crash on save"
    body := some "The app crashes when saving"
    state := "closed"
    labels := some ["bug", "5 points"]
    assigneeLogin := none
    created_at := 1704067200000
    closed_at := some 1704326400000
    html_url := "https://example.test/101" }

/-- An Azure DevOps work item carrying both timestamps. -/
def exAdoClosed : Platforms.AdoItem :=
  { id := 7
    fields :=
      { createdDate := 0, closedDate := some 90000000, state := some "Done"
        workItemType := some "Bug", title := some "t", description := some "d"
        priority := some 2, storyPoints := some 3, tags := none
        assignedTo := none, teamProject := some "P", iterationPath := none }
    htmlHref := none
    url := "org/proj" }

/-- A Jira issue carrying both timestamps. -/
def exJiraClosed : Platforms.JiraIssue :=
  { key := "PM-1"
    fields :=
      { created := 0, resolutiondate := some 86400000, statusName := some "Done"
        issuetypeName := some "Story", summary := some "s", description := none
        priorityName := none, customfield10016 := none, customfield10026 := none
        customfield10004 := none, storyPointsNamed := none, labels := none
        assigneeDisplayName := none, projectKey := some "PM", sprintName := none }
    domain := "x.atlassian.net" }

/-- An Azure DevOps work item reported in state `Done` without a close date:
the payload shape that separates `state == closed` from `closedAt != null`. -/
def exAdoDone : Platforms.AdoItem :=
  { id := 9
    fields :=
      { createdDate := 0, closedDate := none, state := some "Done"
        workItemType := some "Task", title := some "t", description := none
        priority := none, storyPoints := none, tags := none
        assignedTo := none, teamProject := none, iterationPath := none }
    htmlHref := none
    url := "org/proj" }

/-- A closed unified issue without a close timestamp (the shape an Azure
DevOps item in state `Done` with no `ClosedDate` normalizes to): it never
qualifies for the cross-org model. -/
def closedNoCycle : Platforms.UnifiedIssue :=
  { id := "ado-1", externalId := "1", platform := "azuredevops"
    title := "A finished story", description := "", state := "closed"
    type := "feature", priority := "medium", storyPoints := none
    labels := [], assignee := "", createdAt := 0, closedAt := none
    cycleTimeDays := none, url := "u", projectKey := "P", sprintName := "" }

/-- A batch of five closed unified issues, none carrying a cycle time. -/
def exClosedBatch : List Platforms.UnifiedIssue := List.replicate 5 closedNoCycle

/-- A closed unified issue whose cycle time is exactly zero days. -/
def exZeroCycle : Platforms.UnifiedIssue :=
  { id := "github-2", externalId := "2", platform := "github"
    title := "Closed instantly", description := "", state := "closed"
    type := "task", priority := "medium", storyPoints := some 0
    labels := [], assignee := "", createdAt := 0, closedAt := some 0
    cycleTimeDays := some 0, url := "u", projectKey := "", sprintName := "" }

/-- A cross-org model in the insufficient-data state. -/
def noDataModel : Platforms.CrossOrgModel :=
  { hasEnoughData := false, sampleSize := 0, platforms := []
    avgCycleTimeFeature := 0, avgCycleTimeBug := 0, avgCycleTimeTask := 0
    multApi := 0, multDb := 0, multAuth := 0, pointsToDays := 0 }

/-- A trained cross-org model with sample size 10. -/
def exCrossModel : Platforms.CrossOrgModel :=
  { hasEnoughData := true, sampleSize := 10, platforms := [("github", 10)]
    avgCycleTimeFeature := 5, avgCycleTimeBug := 2, avgCycleTimeTask := 3
    multApi := 1, multDb := 1, multAuth := 1, pointsToDays := 1 }

/-- A trained single-source model with sample size 10. -/
def exGpmModel : GithubPM.GPMModel :=
  { hasEnoughData := true, sampleSize := 10
    avgFeature := 5, avgBug := 2, avgChore := 3, avgOther := 3
    multApi := 1, multDb := 1, multAuth := 1, multRefactor := 1.5, multNewFeature := 1.2
    pointsToDays := 1 }

/-- An open issue for the single-source estimator. -/
def exEstIssue : GithubPM.OpenIssue :=
  { number := 1, title := "Do a thing", body := none, labels := [], html_url := "u" }

/-- An issue with an empty body and no labels, for the gap-analyzer
scenario. -/
def exGapIssue : GithubPM.OpenIssue :=
  { number := 7, title := "Improve workflow", body := none, labels := [], html_url := "u" }

/-- Claim C5: on all three platforms, when the payload carries both a
creation and a close timestamp the normalizer sets
`cycleTimeDays = ceil((closedAt - createdAt) / 1 day)`; `ceilDivInt` rounds
partial days up and never down; and the concrete GitHub issue with labels
`["bug", "5 points"]` created 2024-01-01 and closed 2024-01-04 normalizes to
`type = bug`, `storyPoints = 5`, `cycleTimeDays = 3`. -/
theorem claim_C5 :
    (∀ (gh : Platforms.GHIssue) (closed : Int), gh.closed_at = some closed →
        (Platforms.normalizeGitHubIssue gh).cycleTimeDays
          = some (ceilDivInt (closed - gh.created_at) msPerDay))
  ∧ (∀ (item : Platforms.AdoItem) (closed : Int), item.fields.closedDate = some closed →
        (Platforms.normalizeAzureDevOpsWorkItem item).cycleTimeDays
          = some (ceilDivInt (closed - item.fields.createdDate) msPerDay))
  ∧ (∀ (ji : Platforms.JiraIssue) (resolved : Int), ji.fields.resolutiondate = some resolved →
        (Platforms.normalizeJiraIssue ji).cycleTimeDays
          = some (ceilDivInt (resolved - ji.fields.created) msPerDay))
  ∧ (∀ a : Int, msPerDay * (ceilDivInt a msPerDay - 1) < a ∧ a ≤ msPerDay * ceilDivInt a msPerDay)
  ∧ (Platforms.normalizeGitHubIssue exGH).type = "bug"
  ∧ (Platforms.normalizeGitHubIssue exGH).storyPoints = some 5
  ∧ (Platforms.normalizeGitHubIssue exGH).cycleTimeDays = some 3 := by
  refine ⟨?_, ?_, ?_, ?_, ?_, ?_, ?_⟩
  · intro gh closed h
    simp [Platforms.normalizeGitHubIssue, h]
  · intro item closed h
    simp [Platforms.normalizeAzureDevOpsWorkItem, h]
  · intro ji resolved h
    simp [Platforms.normalizeJiraIssue, h]
  · intro a
    unfold ceilDivInt msPerDay
    omega
  · decide
  · decide
  · decide

/-- Witness for claim C5 at concrete inputs on all three platforms. -/
theorem claim_C5_witness :
    (Platforms.normalizeGitHubIssue exGH).cycleTimeDays
        = some (ceilDivInt (1704326400000 - 1704067200000) msPerDay)
  ∧ (Platforms.normalizeAzureDevOpsWorkItem exAdoClosed).cycleTimeDays
        = some (ceilDivInt (90000000 - 0) msPerDay)
  ∧ (Platforms.normalizeJiraIssue exJiraClosed).cycleTimeDays
        = some (ceilDivInt (86400000 - 0) msPerDay)
  ∧ (msPerDay * (ceilDivInt 1 msPerDay - 1) < 1 ∧ (1 : Int) ≤ msPerDay * ceilDivInt 1 msPerDay) :=
  ⟨claim_C5.1 exGH 1704326400000 rfl,
   claim_C5.2.1 exAdoClosed 90000000 rfl,
   claim_C5.2.2.1 exJiraClosed 86400000 rfl,
   claim_C5.2.2.2.1 1⟩

/-- Claim C6 (amended): for every issue produced by any of the three
normalizers, `closedAt != null` is equivalent to `cycleTimeDays != null`;
the additional equivalence with `state == closed` claimed by the
specification fails (see the counterexample). -/
theorem claim_C6 (gh : Platforms.GHIssue) (item : Platforms.AdoItem)
    (ji : Platforms.JiraIssue) :
    ((Platforms.normalizeGitHubIssue gh).closedAt ≠ none
      ↔ (Platforms.normalizeGitHubIssue gh).cycleTimeDays ≠ none)
  ∧ ((Platforms.normalizeAzureDevOpsWorkItem item).closedAt ≠ none
      ↔ (Platforms.normalizeAzureDevOpsWorkItem item).cycleTimeDays ≠ none)
  ∧ ((Platforms.normalizeJiraIssue ji).closedAt ≠ none
      ↔ (Platforms.normalizeJiraIssue ji).cycleTimeDays ≠ none) := by
  refine ⟨?_, ?_, ?_⟩
  · simp only [Platforms.normalizeGitHubIssue]
    cases gh.closed_at <;> simp
  · simp only [Platforms.normalizeAzureDevOpsWorkItem]
    cases item.fields.closedDate <;> simp
  · simp only [Platforms.normalizeJiraIssue]
    cases ji.fields.resolutiondate <;> simp

/-- Counterexample to claim C6 as stated: an Azure DevOps work item in state
`Done` with no close date normalizes to `state = "closed"` while both
`closedAt` and `cycleTimeDays` are null, refuting
`state == closed ⇔ closedAt != null`. -/
theorem claim_C6_cex :
    (Platforms.normalizeAzureDevOpsWorkItem exAdoDone).state = "closed"
  ∧ (Platforms.normalizeAzureDevOpsWorkItem exAdoDone).closedAt = none
  ∧ ¬(((Platforms.normalizeAzureDevOpsWorkItem exAdoDone).state = "closed")
        ↔ ((Platforms.normalizeAzureDevOpsWorkItem exAdoDone).closedAt ≠ none)) := by
  refine ⟨by decide, by decide, ?_⟩
  intro h
  exact (h.mp (by decide)) (by decide)

/-- Claim C3 (amended): the cross-org builder returns `hasEnoughData = true`
iff at least five input issues qualify (state closed with a truthy cycle
time), and the single-source builder returns `hasEnoughData = true` iff its
input list has at least five entries; in particular both return
`hasEnoughData = false` whenever fewer than five issues qualify. -/
theorem claim_C3 (allIssues : List Platforms.UnifiedIssue)
    (historicalIssues : List GithubPM.TimedIssue) :
    ((Platforms.buildCrossOrgEstimationModel allIssues).hasEnoughData = true
      ↔ 5 ≤ (Platforms.crossOrgQualifying allIssues).length)
  ∧ ((GithubPM.buildEstimationModel historicalIssues).hasEnoughData = true
      ↔ 5 ≤ historicalIssues.length) := by
  constructor
  · simp only [Platforms.buildCrossOrgEstimationModel]
    split
    · rename_i h
      simp only [Bool.false_eq_true, false_iff]
      omega
    · rename_i h
      simp only [true_iff]
      omega
  · simp only [GithubPM.buildEstimationModel]
    split
    · rename_i h
      simp only [Bool.false_eq_true, false_iff]
      omega
    · rename_i h
      simp only [true_iff]
      omega

/-- Counterexample to claim C3 as stated: a batch of five closed issues with
no cycle times has input size 5 yet the cross-org builder returns
`hasEnoughData = false`, because the threshold is applied to the qualifying
issues (closed with a truthy cycle time), not to the input batch size. -/
theorem claim_C3_cex :
    exClosedBatch.length = 5
  ∧ exClosedBatch.all (fun i => i.state == "closed") = true
  ∧ (Platforms.buildCrossOrgEstimationModel exClosedBatch).hasEnoughData = false := by
  refine ⟨by decide, by decide, by decide⟩

/-- Claim C4 (amended): with `hasEnoughData = false` the cross-org estimator
never consults the model and returns exactly the additive keyword heuristic
`heuristicEstimate`, whose confidence is always 40 (not the keyword-lexicon
analysis with its 55/40 confidence split, as claimed; see the
counterexample). -/
theorem claim_C4 (model : Platforms.CrossOrgModel) (title description : String)
    (labels : List String) (h : model.hasEnoughData = false) :
    Platforms.estimateWithCrossOrgModel title description labels model
      = Platforms.heuristicEstimate title description labels
  ∧ (Platforms.estimateWithCrossOrgModel title description labels model).confidence = 40
  ∧ (Platforms.estimateWithCrossOrgModel title description labels model).isHeuristic = true := by
  refine ⟨?_, ?_, ?_⟩ <;>
    simp [Platforms.estimateWithCrossOrgModel, h, Platforms.heuristicEstimate]

/-- Witness for claim C4 at a concrete no-data model and story. -/
theorem claim_C4_witness :
    Platforms.estimateWithCrossOrgModel "Add search" "" [] noDataModel
      = Platforms.heuristicEstimate "Add search" "" []
  ∧ (Platforms.estimateWithCrossOrgModel "Add search" "" [] noDataModel).confidence = 40 :=
  ⟨(claim_C4 noDataModel "Add search" "" [] rfl).1,
   (claim_C4 noDataModel "Add search" "" [] rfl).2.1⟩

/-- Counterexample to claim C4 as stated: for the story
`fix bug in api integration` the keyword-lexicon analysis yields points 8
with match count 3 (so the claim predicts points 8 and confidence 55), but
the no-data cross-org path returns points 3 with confidence 40. -/
theorem claim_C4_cex :
    (Estimation.analyzeKeywordComplexity "fix bug in api integration").points = 8
  ∧ (Estimation.analyzeKeywordComplexity "fix bug in api integration").matchCount = 3
  ∧ (Platforms.estimateWithCrossOrgModel "fix bug in api integration" "" [] noDataModel).confidence
      = 40
  ∧ (Platforms.estimateWithCrossOrgModel "fix bug in api integration" "" [] noDataModel).points
      = 3 := by
  refine ⟨by decide, by decide, by decide, ?_⟩
  show (Platforms.heuristicEstimate "fix bug in api integration" "" []).points = 3
  simp +decide only [Platforms.heuristicEstimate]
  norm_num [Platforms.fibReduce, List.foldl, jsAbs]

/-- Claim C7: with a trained model, the cross-org estimator's confidence is
`min 95 (50 + sampleSize)` while the single-source estimator's confidence is
`min 95 (50 + sampleSize * 2)`; both are capped at 95. -/
theorem claim_C7 (m1 : Platforms.CrossOrgModel) (title description : String)
    (labels : List String) (m2 : GithubPM.GPMModel) (issue : GithubPM.OpenIssue)
    (h1 : m1.hasEnoughData = true) (h2 : m2.hasEnoughData = true) :
    (Platforms.estimateWithCrossOrgModel title description labels m1).confidence
        = min 95 (50 + m1.sampleSize)
  ∧ (GithubPM.estimateStoryPoints issue m2).confidence = min 95 (50 + m2.sampleSize * 2)
  ∧ (Platforms.estimateWithCrossOrgModel title description labels m1).confidence ≤ 95
  ∧ (GithubPM.estimateStoryPoints issue m2).confidence ≤ 95 := by
  refine ⟨?_, ?_, ?_, ?_⟩ <;>
    simp [Platforms.estimateWithCrossOrgModel, GithubPM.estimateStoryPoints, h1, h2]

/-- Witness for claim C7: at sample size 10 the two formulas produce the
distinct confidences 60 and 70. -/
theorem claim_C7_witness :
    (Platforms.estimateWithCrossOrgModel "a" "b" [] exCrossModel).confidence = 60
  ∧ (GithubPM.estimateStoryPoints exEstIssue exGpmModel).confidence = 70 :=
  ⟨((claim_C7 exCrossModel "a" "b" [] exGpmModel exEstIssue rfl rfl).1).trans (by decide),
   ((claim_C7 exCrossModel "a" "b" [] exGpmModel exEstIssue rfl rfl).2.1).trans (by decide)⟩

/-- Claim C10: in the cross-org model builder, zero numeric values are
treated as absent: every qualifying issue is closed with a non-null,
non-zero cycle time (so a zero cycle time is excluded from the sample and
from `sampleSize`), and every issue entering the points-to-days average has
a non-null, non-zero story-point value, so the division
`cycleTimeDays / storyPoints` never has a zero divisor. -/
theorem claim_C10 (issues : List Platforms.UnifiedIssue) :
    (∀ i ∈ Platforms.crossOrgQualifying issues,
        i.state = "closed" ∧ ∃ d, i.cycleTimeDays = some d ∧ d ≠ 0)
  ∧ (∀ i ∈ issues, i.cycleTimeDays = some 0 → i ∉ Platforms.crossOrgQualifying issues)
  ∧ (Platforms.buildCrossOrgEstimationModel issues).sampleSize
      = (Platforms.crossOrgQualifying issues).length
  ∧ (∀ i ∈ (Platforms.crossOrgQualifying issues).filter
        (fun i => Platforms.jsTruthyOptQ i.storyPoints),
      ∃ p, i.storyPoints = some p ∧ p ≠ 0)
  ∧ (∀ i ∈ Platforms.crossOrgQualifying issues, i.storyPoints = some 0 →
      i ∉ (Platforms.crossOrgQualifying issues).filter
        (fun i => Platforms.jsTruthyOptQ i.storyPoints)) := by
  refine ⟨?_, ?_, ?_, ?_, ?_⟩
  · intro i hi
    rw [Platforms.crossOrgQualifying, List.mem_filter] at hi
    obtain ⟨-, hcond⟩ := hi
    rw [Bool.and_eq_true, beq_iff_eq] at hcond
    obtain ⟨hstate, htruthy⟩ := hcond
    refine ⟨hstate, ?_⟩
    cases hc : i.cycleTimeDays with
    | none => rw [hc] at htruthy; simp [Platforms.jsTruthyOptInt] at htruthy
    | some d =>
      refine ⟨d, rfl, ?_⟩
      rw [hc] at htruthy
      simpa [Platforms.jsTruthyOptInt] using htruthy
  · intro i _ h0 hmem
    rw [Platforms.crossOrgQualifying, List.mem_filter] at hmem
    obtain ⟨-, hcond⟩ := hmem
    rw [Bool.and_eq_true] at hcond
    obtain ⟨-, htruthy⟩ := hcond
    rw [h0] at htruthy
    simp [Platforms.jsTruthyOptInt] at htruthy
  · simp only [Platforms.buildCrossOrgEstimationModel]
    split <;> rfl
  · intro i hi
    rw [List.mem_filter] at hi
    obtain ⟨-, htruthy⟩ := hi
    cases hp : i.storyPoints with
    | none => rw [hp] at htruthy; simp [Platforms.jsTruthyOptQ] at htruthy
    | some p =>
      refine ⟨p, rfl, ?_⟩
      rw [hp] at htruthy
      simpa [Platforms.jsTruthyOptQ] using htruthy
  · intro i _ h0 hmem
    rw [List.mem_filter] at hmem
    obtain ⟨-, htruthy⟩ := hmem
    rw [h0] at htruthy
    simp [Platforms.jsTruthyOptQ] at htruthy

/-- Witness for claim C10: a closed issue with `cycleTimeDays = 0` is
excluded from the qualifying sample, and the resulting sample size is
that of the qualifying list. -/
theorem claim_C10_witness :
    exZeroCycle ∉ Platforms.crossOrgQualifying [exZeroCycle]
  ∧ (Platforms.buildCrossOrgEstimationModel [exZeroCycle]).sampleSize
      = (Platforms.crossOrgQualifying [exZeroCycle]).length :=
  ⟨(claim_C10 [exZeroCycle]).2.1 exZeroCycle (by simp) rfl,
   (claim_C10 [exZeroCycle]).2.2.1⟩

/-- Claim C1: for every text, `analyzeKeywordComplexity` assigns points by the
exact branch precedence of the decision table applied to the case-sensitive
substring match counts of the three lexicons (the caller lower-cases the text,
making the matches case-insensitive); in particular the table yields 13 for
two high-tier matches and no medium or low matches. -/
theorem claim_C1 (text : String) :
    (Estimation.analyzeKeywordComplexity text).points
        = Estimation.keywordPointsSpec
            (Estimation.countMatches Estimation.COMPLEXITY_HIGH text)
            (Estimation.countMatches Estimation.COMPLEXITY_MEDIUM text)
            (Estimation.countMatches Estimation.COMPLEXITY_LOW text)
  ∧ Estimation.keywordPointsSpec 2 0 0 = 13 := by
  constructor
  · simp only [Estimation.analyzeKeywordComplexity, Estimation.keywordPointsSpec,
      Estimation.countMatches, List.countP_eq_length_filter]
  · rfl

set_option maxHeartbeats 1000000 in
/-- Every `nearestFibonacci` result is a value of the story-point table. -/
theorem nearestFibonacci_mem (x : ℚ) :
    Estimation.nearestFibonacci x ∈ Estimation.STORY_POINTS := by
  unfold Estimation.nearestFibonacci Estimation.STORY_POINTS
  simp only [List.foldl]
  split_ifs <;> simp

set_option maxHeartbeats 1000000 in
/-- Every story-point table value is a fixed point of `nearestFibonacci`. -/
theorem nearestFibonacci_fixed :
    ∀ p ∈ Estimation.STORY_POINTS, Estimation.nearestFibonacci p = p := by
  intro p hp
  simp only [Estimation.STORY_POINTS] at hp
  fin_cases hp <;>
    · simp only [Estimation.nearestFibonacci, Estimation.STORY_POINTS, List.foldl]
      norm_num [jsAbs]

/-- Claim C9: `nearestFibonacci` always returns a value of
{1, 2, 3, 5, 8, 13, 21} and is idempotent. -/
theorem claim_C9 (x : ℚ) :
    Estimation.nearestFibonacci x ∈ Estimation.STORY_POINTS
  ∧ Estimation.nearestFibonacci (Estimation.nearestFibonacci x)
      = Estimation.nearestFibonacci x :=
  ⟨nearestFibonacci_mem x, nearestFibonacci_fixed _ (nearestFibonacci_mem x)⟩

/-- Claim C2: `estimate` follows the specification's decision policy over the
similar-issue list (strong history, blended, keyword-only, with the stated
confidences), and the Fibonacci rounding breaks every tie toward the smaller
value (all six midpoints of consecutive table values round down). -/
theorem claim_C2 (historicalData : List Estimation.HistIssue) (storyText : String)
    (description : Option String) (labels : Option (List String)) :
    ((Estimation.estimate historicalData storyText description labels).points,
      (Estimation.estimate historicalData storyText description labels).confidence)
        = Estimation.estimatePolicySpec
            (Estimation.findSimilarIssues historicalData
              (Estimation.combinedText storyText description labels))
            ((Estimation.analyzeKeywordComplexity
                (Estimation.combinedText storyText description labels)).points : ℚ)
            (Estimation.analyzeKeywordComplexity
              (Estimation.combinedText storyText description labels)).matchCount
  ∧ Estimation.nearestFibonacci (3/2) = 1
  ∧ Estimation.nearestFibonacci (5/2) = 2
  ∧ Estimation.nearestFibonacci 4 = 3
  ∧ Estimation.nearestFibonacci (13/2) = 5
  ∧ Estimation.nearestFibonacci (21/2) = 8
  ∧ Estimation.nearestFibonacci 17 = 13 := by
  refine ⟨?_, ?_, ?_, ?_, ?_, ?_, ?_⟩
  · simp only [Estimation.estimate, Estimation.estimatePolicySpec]
    cases hs : Estimation.findSimilarIssues historicalData
        (Estimation.combinedText storyText description labels) with
    | nil => norm_num
    | cons s0 rest => simp only [List.head?, Prod.mk.eta]
  · simp only [Estimation.nearestFibonacci, Estimation.STORY_POINTS, List.foldl]
    norm_num [jsAbs]
  · simp only [Estimation.nearestFibonacci, Estimation.STORY_POINTS, List.foldl]
    norm_num [jsAbs]
  · simp only [Estimation.nearestFibonacci, Estimation.STORY_POINTS, List.foldl]
    norm_num [jsAbs]
  · simp only [Estimation.nearestFibonacci, Estimation.STORY_POINTS, List.foldl]
    norm_num [jsAbs]
  · simp only [Estimation.nearestFibonacci, Estimation.STORY_POINTS, List.foldl]
    norm_num [jsAbs]
  · simp only [Estimation.nearestFibonacci, Estimation.STORY_POINTS, List.foldl]
    norm_num [jsAbs]

/-- Claim C8: the gap analyzer's score equals
`max(0, 100 - 25*high - 10*medium - 5*low)` over the severities of the
returned gap list, and every issue with an empty body and no labels is
flagged at least with the Acceptance Criteria, Edge Cases, Error Handling
and Test Cases gaps. -/
theorem claim_C8 (issue : GithubPM.OpenIssue) :
    (GithubPM.analyzeStoryGaps issue).score
        = max 0 (100
          - 25 * ((GithubPM.analyzeStoryGaps issue).gaps.countP
              (fun g => g.severity == "high") : Int)
          - 10 * ((GithubPM.analyzeStoryGaps issue).gaps.countP
              (fun g => g.severity == "medium") : Int)
          - 5 * ((GithubPM.analyzeStoryGaps issue).gaps.countP
              (fun g => g.severity == "low") : Int))
  ∧ (issue.body.getD "" = "" → issue.labels = [] →
      ("Acceptance Criteria"
          ∈ (GithubPM.analyzeStoryGaps issue).gaps.map (fun g => g.category)
        ∧ "Edge Cases" ∈ (GithubPM.analyzeStoryGaps issue).gaps.map (fun g => g.category)
        ∧ "Error Handling" ∈ (GithubPM.analyzeStoryGaps issue).gaps.map (fun g => g.category)
        ∧ "Test Cases" ∈ (GithubPM.analyzeStoryGaps issue).gaps.map (fun g => g.category))) := by
  constructor
  · simp only [GithubPM.analyzeStoryGaps, List.countP_eq_length_filter]
    omega
  · intro hbody hlabels
    simp +decide [GithubPM.analyzeStoryGaps, hbody, hlabels, List.mem_append, List.mem_map]

/-- Witness for claim C8 at a concrete issue with empty body and no labels. -/
theorem claim_C8_witness :
    "Acceptance Criteria"
        ∈ (GithubPM.analyzeStoryGaps exGapIssue).gaps.map (fun g => g.category)
  ∧ "Edge Cases" ∈ (GithubPM.analyzeStoryGaps exGapIssue).gaps.map (fun g => g.category)
  ∧ "Error Handling" ∈ (GithubPM.analyzeStoryGaps exGapIssue).gaps.map (fun g => g.category)
  ∧ "Test Cases" ∈ (GithubPM.analyzeStoryGaps exGapIssue).gaps.map (fun g => g.category) :=
  (claim_C8 exGapIssue).2 rfl rfl
